import Mathlib

/-!
Shallow embedding of the `transact` Go package: a helper running a unit of
work inside a database transaction, committing on success and rolling back
on failure or panic (re-raising the panic after rollback).

Modelled entities:
* `Ctx` — an execution context; `Ctx.background` models `context.Background()`.
* `Tx` — a transaction handle produced by a successful begin.
* `UowResult` — the behaviour of the unit of work on a given handle:
  normal `ok` return, an error return, or a panic.  A panic payload is an
  `Option P`: `none` models `panic(nil)`, for which Go's `recover()` yields
  `nil` (pre-1.21 semantics, matching this repository's era).
* `DB` — a database handle: begin may fail with an error or yield a handle;
  commit and rollback on a given handle may each report an error.
* `Event` — the trace of operations a call performs, in order.
* `Outcome` — what the caller observes: a returned `Option E` (Go's nilable
  `error`) or a re-raised panic with its (necessarily non-nil) payload.
-/

namespace Transact

/-- Execution contexts.  `background` models `context.Background()`;
`custom n` models any other context value. -/
inductive Ctx : Type where
  | background : Ctx
  | custom (n : Nat) : Ctx
deriving DecidableEq

/-- A transaction handle (`*sql.Tx`), identified abstractly. -/
structure Tx : Type where
  id : Nat
deriving DecidableEq

/-- The observable behaviour of the unit of work (`txFunc`) on one handle:
it returns `nil`, returns a non-nil error `e`, or panics with payload
`payload` (where `none` models `panic(nil)`). -/
inductive UowResult (E P : Type) : Type where
  | ok : UowResult E P
  | err (e : E) : UowResult E P
  | panics (payload : Option P) : UowResult E P
deriving DecidableEq

/-- Whether the unit of work terminated abnormally (panicked). -/
def UowResult.isPanic {E P : Type} : UowResult E P → Bool
  | .panics _ => true
  | _ => false

/-- A database handle (`*sql.DB`) together with the behaviour of the
transaction methods used by the helper: `beginTx` models
`db.BeginTx(ctx, nil)` (an error or a fresh handle), `commitErr tx` the
error returned by `tx.Commit()`, and `rollbackErr tx` the error returned
by `tx.Rollback()` (which the helper discards). -/
structure DB (E : Type) : Type where
  beginTx : Ctx → Except E Tx
  commitErr : Tx → Option E
  rollbackErr : Tx → Option E

/-- The operations a call performs, in order: begin the transaction, run
the unit of work, commit, roll back. -/
inductive Event : Type where
  | beginOp : Event
  | uowOp : Event
  | commitOp : Event
  | rollbackOp : Event
deriving DecidableEq

/-- What the caller observes: a normal return carrying Go's nilable error
(`none` = `nil`), or a re-raised panic.  The re-panic branch only fires
when `recover()` is non-nil, so the re-raised payload is a bare `P`. -/
inductive Outcome (E P : Type) : Type where
  | ret (e : Option E) : Outcome E P
  | panicked (payload : P) : Outcome E P
deriving DecidableEq

/-- The full observable result of one call: its outcome and the ordered
trace of transaction operations it performed. -/
structure CallResult (E P : Type) : Type where
  outcome : Outcome E P
  events : List Event
deriving DecidableEq

/-- What `recover()` yields in the deferred closure after the unit of work
resolves: the panic payload when it panicked (nil payload gives nil), and
nil when it returned normally. -/
def recoverValue {E P : Type} : UowResult E P → Option P
  | .panics p => p
  | _ => none

/-- The value of the named return `err` at the time the deferred closure
runs: set by `return txFunc(tx)` on a normal return, and still `nil` (from
the successful begin) when the unit of work panicked before returning. -/
def errAtDefer {E P : Type} : UowResult E P → Option E
  | .err e => some e
  | _ => none

/-- The deferred closure of `DoContext` (src/transact.go lines 18-31):
if `recover()` is non-nil, roll back and re-panic with the same payload;
otherwise switch on `err`: `nil` commits (the commit error becoming the
returned error), non-nil rolls back leaving `err` unchanged.  Rollback's
own error is discarded in both rollback paths. -/
def deferredFinalize {E P : Type} (db : DB E) (tx : Tx)
    (pErr : Option P) (err : Option E) : Outcome E P × List Event :=
  match pErr with
  | some p => (Outcome.panicked p, [Event.rollbackOp])
  | none =>
    match err with
    | none => (Outcome.ret (db.commitErr tx), [Event.commitOp])
    | some e => (Outcome.ret (some e), [Event.rollbackOp])

/-- The helper `DoContext` (src/transact.go lines 12-34): begin the transaction; on a
begin failure return that error at once (the deferred closure is not yet
registered, so nothing else runs); otherwise run the unit of work and let
the deferred closure decide commit/rollback/re-panic. -/
def DoContext {E P : Type} (ctx : Ctx) (db : DB E)
    (txFunc : Tx → UowResult E P) : CallResult E P :=
  match db.beginTx ctx with
  | .error e => ⟨Outcome.ret (some e), [Event.beginOp]⟩
  | .ok tx =>
    let r := txFunc tx
    let fin := deferredFinalize db tx (recoverValue r) (errAtDefer r)
    ⟨fin.1, Event.beginOp :: Event.uowOp :: fin.2⟩

/-- The wrapper `Do` (src/transact.go lines 38-40): the context-free convenience
wrapper, delegating to `DoContext` with `context.Background()`. -/
def Do {E P : Type} (db : DB E) (txFunc : Tx → UowResult E P) :
    CallResult E P :=
  DoContext Ctx.background db txFunc

namespace Legacy

/-- The deferred closure of the legacy three-argument `Do`
(src/unnamed/part_001 lines 18-31), embedded separately from its own
source text: same recover guard, same switch on the named return. -/
def deferredFinalize {E P : Type} (db : DB E) (tx : Tx)
    (pErr : Option P) (err : Option E) : Outcome E P × List Event :=
  match pErr with
  | some p => (Outcome.panicked p, [Event.rollbackOp])
  | none =>
    match err with
    | none => (Outcome.ret (db.commitErr tx), [Event.commitOp])
    | some e => (Outcome.ret (some e), [Event.rollbackOp])

/-- The legacy three-argument `Do` (src/unnamed/part_001 lines 12-34). -/
def Do {E P : Type} (ctx : Ctx) (db : DB E)
    (txFunc : Tx → UowResult E P) : CallResult E P :=
  match db.beginTx ctx with
  | .error e => ⟨Outcome.ret (some e), [Event.beginOp]⟩
  | .ok tx =>
    let r := txFunc tx
    let fin := Legacy.deferredFinalize db tx (recoverValue r) (errAtDefer r)
    ⟨fin.1, Event.beginOp :: Event.uowOp :: fin.2⟩

end Legacy

/-- A concrete database handle over `Nat` errors whose begin always
succeeds with handle 0, whose commit succeeds, and whose rollback fails
with error 7 (exercising the discarded-rollback-error paths). -/
def dbOk : DB Nat :=
  ⟨fun _ => Except.ok ⟨0⟩, fun _ => none, fun _ => some 7⟩

/-- A concrete database handle whose begin fails with error 3. -/
def dbBeginFails : DB Nat :=
  ⟨fun _ => Except.error 3, fun _ => none, fun _ => none⟩

/-- A concrete database handle whose begin succeeds and whose commit
fails with error 9. -/
def dbCommitFails : DB Nat :=
  ⟨fun _ => Except.ok ⟨0⟩, fun _ => some 9, fun _ => none⟩

/-- Run lemma: when begin fails with `e`, the call returns `e` and the
trace is just the begin attempt. -/
theorem run_beginFail {E P : Type} (ctx : Ctx) (db : DB E)
    (txFunc : Tx → UowResult E P) (e : E)
    (h : db.beginTx ctx = Except.error e) :
    DoContext ctx db txFunc = ⟨Outcome.ret (some e), [Event.beginOp]⟩ := by
  unfold DoContext
  rw [h]

/-- Run lemma: begin succeeds and the unit of work returns `nil`:
the call commits and returns the commit error. -/
theorem run_ok {E P : Type} (ctx : Ctx) (db : DB E)
    (txFunc : Tx → UowResult E P) (tx : Tx)
    (h : db.beginTx ctx = Except.ok tx) (hf : txFunc tx = UowResult.ok) :
    DoContext ctx db txFunc =
      ⟨Outcome.ret (db.commitErr tx),
        [Event.beginOp, Event.uowOp, Event.commitOp]⟩ := by
  unfold DoContext
  rw [h]
  simp only [hf, recoverValue, errAtDefer, deferredFinalize]

/-- Run lemma: begin succeeds and the unit of work returns error `e`:
the call rolls back and returns `e`. -/
theorem run_err {E P : Type} (ctx : Ctx) (db : DB E)
    (txFunc : Tx → UowResult E P) (tx : Tx) (e : E)
    (h : db.beginTx ctx = Except.ok tx) (hf : txFunc tx = UowResult.err e) :
    DoContext ctx db txFunc =
      ⟨Outcome.ret (some e),
        [Event.beginOp, Event.uowOp, Event.rollbackOp]⟩ := by
  unfold DoContext
  rw [h]
  simp only [hf, recoverValue, errAtDefer, deferredFinalize]

/-- Run lemma: begin succeeds and the unit of work panics with non-nil
payload `p`: the call rolls back and re-raises `p`. -/
theorem run_panicSome {E P : Type} (ctx : Ctx) (db : DB E)
    (txFunc : Tx → UowResult E P) (tx : Tx) (p : P)
    (h : db.beginTx ctx = Except.ok tx)
    (hf : txFunc tx = UowResult.panics (some p)) :
    DoContext ctx db txFunc =
      ⟨Outcome.panicked p,
        [Event.beginOp, Event.uowOp, Event.rollbackOp]⟩ := by
  unfold DoContext
  rw [h]
  simp only [hf, recoverValue, errAtDefer, deferredFinalize]

/-- Run lemma: begin succeeds and the unit of work panics with a nil
payload: `recover()` yields nil, the guard does not fire, and the
`err = nil` branch commits. -/
theorem run_panicNone {E P : Type} (ctx : Ctx) (db : DB E)
    (txFunc : Tx → UowResult E P) (tx : Tx)
    (h : db.beginTx ctx = Except.ok tx)
    (hf : txFunc tx = UowResult.panics none) :
    DoContext ctx db txFunc =
      ⟨Outcome.ret (db.commitErr tx),
        [Event.beginOp, Event.uowOp, Event.commitOp]⟩ := by
  unfold DoContext
  rw [h]
  simp only [hf, recoverValue, errAtDefer, deferredFinalize]

/-- C1: for every call in which beginning the transaction succeeds, exactly
one finalization action (commit or rollback) is performed exactly once
before the call returns or re-raises, on every exit path of the unit of
work: normal return, error return, and panic. -/
theorem doContext_exactly_one_finalization {E P : Type} (ctx : Ctx)
    (db : DB E) (txFunc : Tx → UowResult E P) (tx : Tx)
    (h : db.beginTx ctx = Except.ok tx) :
    (DoContext ctx db txFunc).events.count Event.commitOp
      + (DoContext ctx db txFunc).events.count Event.rollbackOp = 1 := by
  rcases hf : txFunc tx with _ | e | (_ | p)
  · rw [run_ok ctx db txFunc tx h hf]; rfl
  · rw [run_err ctx db txFunc tx e h hf]; rfl
  · rw [run_panicNone ctx db txFunc tx h hf]; rfl
  · rw [run_panicSome ctx db txFunc tx p h hf]; rfl

theorem doContext_exactly_one_finalization_witness :
    dbOk.beginTx Ctx.background = Except.ok ⟨0⟩ ∧
    ((DoContext Ctx.background dbOk
        (fun _ => (UowResult.ok : UowResult Nat Nat))).events.count
          Event.commitOp
      + (DoContext Ctx.background dbOk
          (fun _ => (UowResult.ok : UowResult Nat Nat))).events.count
            Event.rollbackOp = 1) :=
  ⟨rfl, doContext_exactly_one_finalization Ctx.background dbOk
    (fun _ => UowResult.ok) ⟨0⟩ rfl⟩

/-- C2: for every unit of work that returns a non-nil error, DoContext
begins the transaction, rolls it back, never invokes commit, and returns
exactly that same error value to the caller. -/
theorem doContext_err_returns_same_error {E P : Type} (ctx : Ctx)
    (db : DB E) (txFunc : Tx → UowResult E P) (tx : Tx) (e : E)
    (h : db.beginTx ctx = Except.ok tx)
    (hf : txFunc tx = UowResult.err e) :
    DoContext ctx db txFunc =
      ⟨Outcome.ret (some e),
        [Event.beginOp, Event.uowOp, Event.rollbackOp]⟩ ∧
    Event.commitOp ∉ (DoContext ctx db txFunc).events := by
  rw [run_err ctx db txFunc tx e h hf]
  refine ⟨rfl, ?_⟩
  show Event.commitOp ∉ [Event.beginOp, Event.uowOp, Event.rollbackOp]
  decide

theorem doContext_err_returns_same_error_witness :
    dbOk.beginTx Ctx.background = Except.ok ⟨0⟩ ∧
    (fun _ : Tx => (UowResult.err 5 : UowResult Nat Nat)) (Tx.mk 0)
      = UowResult.err 5 ∧
    (DoContext Ctx.background dbOk
        (fun _ => (UowResult.err 5 : UowResult Nat Nat)) =
      ⟨Outcome.ret (some 5),
        [Event.beginOp, Event.uowOp, Event.rollbackOp]⟩ ∧
    Event.commitOp ∉ (DoContext Ctx.background dbOk
        (fun _ => (UowResult.err 5 : UowResult Nat Nat))).events) :=
  ⟨rfl, rfl, doContext_err_returns_same_error Ctx.background dbOk
    (fun _ => UowResult.err 5) ⟨0⟩ 5 rfl rfl⟩

/-- C3 counterexample: a unit of work that panics with a nil payload
(`panic(nil)`, for which `recover()` yields nil) is an abnormal
termination, yet DoContext commits and returns normally instead of
rolling back and re-raising it. -/
theorem doContext_panic_nil_refutes_universal_reraise :
    (UowResult.panics none : UowResult Nat Nat).isPanic = true ∧
    DoContext Ctx.background dbOk
        (fun _ => (UowResult.panics none : UowResult Nat Nat)) =
      ⟨Outcome.ret none, [Event.beginOp, Event.uowOp, Event.commitOp]⟩ :=
  ⟨rfl, rfl⟩

/-- C3 (amended): for every unit of work that panics with a non-nil
payload, DoContext begins the transaction, rolls it back, never invokes
commit, and re-raises the identical payload. -/
theorem doContext_panic_rolls_back_and_reraises {E P : Type} (ctx : Ctx)
    (db : DB E) (txFunc : Tx → UowResult E P) (tx : Tx) (p : P)
    (h : db.beginTx ctx = Except.ok tx)
    (hf : txFunc tx = UowResult.panics (some p)) :
    DoContext ctx db txFunc =
      ⟨Outcome.panicked p,
        [Event.beginOp, Event.uowOp, Event.rollbackOp]⟩ ∧
    Event.commitOp ∉ (DoContext ctx db txFunc).events := by
  rw [run_panicSome ctx db txFunc tx p h hf]
  refine ⟨rfl, ?_⟩
  show Event.commitOp ∉ [Event.beginOp, Event.uowOp, Event.rollbackOp]
  decide

theorem doContext_panic_rolls_back_and_reraises_witness :
    dbOk.beginTx Ctx.background = Except.ok ⟨0⟩ ∧
    (fun _ : Tx => (UowResult.panics (some 8) : UowResult Nat Nat)) (Tx.mk 0)
      = UowResult.panics (some 8) ∧
    (DoContext Ctx.background dbOk
        (fun _ => (UowResult.panics (some 8) : UowResult Nat Nat)) =
      ⟨Outcome.panicked 8,
        [Event.beginOp, Event.uowOp, Event.rollbackOp]⟩ ∧
    Event.commitOp ∉ (DoContext Ctx.background dbOk
        (fun _ => (UowResult.panics (some 8) : UowResult Nat Nat))).events) :=
  ⟨rfl, rfl, doContext_panic_rolls_back_and_reraises Ctx.background dbOk
    (fun _ => UowResult.panics (some 8)) ⟨0⟩ 8 rfl rfl⟩

/-- C4: for every unit of work that returns nil, DoContext begins the
transaction, commits it, never invokes rollback, and returns nil — unless
commit itself fails, in which case the commit error is returned. -/
theorem doContext_ok_commits {E P : Type} (ctx : Ctx) (db : DB E)
    (txFunc : Tx → UowResult E P) (tx : Tx)
    (h : db.beginTx ctx = Except.ok tx) (hf : txFunc tx = UowResult.ok) :
    DoContext ctx db txFunc =
      ⟨Outcome.ret (db.commitErr tx),
        [Event.beginOp, Event.uowOp, Event.commitOp]⟩ ∧
    Event.rollbackOp ∉ (DoContext ctx db txFunc).events := by
  rw [run_ok ctx db txFunc tx h hf]
  refine ⟨rfl, ?_⟩
  show Event.rollbackOp ∉ [Event.beginOp, Event.uowOp, Event.commitOp]
  decide

theorem doContext_ok_commits_witness :
    dbCommitFails.beginTx Ctx.background = Except.ok ⟨0⟩ ∧
    (fun _ : Tx => (UowResult.ok : UowResult Nat Nat)) (Tx.mk 0) = UowResult.ok ∧
    (DoContext Ctx.background dbCommitFails
        (fun _ => (UowResult.ok : UowResult Nat Nat)) =
      ⟨Outcome.ret (dbCommitFails.commitErr ⟨0⟩),
        [Event.beginOp, Event.uowOp, Event.commitOp]⟩ ∧
    Event.rollbackOp ∉ (DoContext Ctx.background dbCommitFails
        (fun _ => (UowResult.ok : UowResult Nat Nat))).events) :=
  ⟨rfl, rfl, doContext_ok_commits Ctx.background dbCommitFails
    (fun _ => UowResult.ok) ⟨0⟩ rfl rfl⟩

/-- C5: if beginning the transaction fails, DoContext returns that begin
failure verbatim, the unit of work is never invoked, and neither commit
nor rollback is invoked. -/
theorem doContext_beginFail_returns_verbatim {E P : Type} (ctx : Ctx)
    (db : DB E) (txFunc : Tx → UowResult E P) (e : E)
    (h : db.beginTx ctx = Except.error e) :
    DoContext ctx db txFunc = ⟨Outcome.ret (some e), [Event.beginOp]⟩ ∧
    Event.uowOp ∉ (DoContext ctx db txFunc).events ∧
    Event.commitOp ∉ (DoContext ctx db txFunc).events ∧
    Event.rollbackOp ∉ (DoContext ctx db txFunc).events := by
  rw [run_beginFail ctx db txFunc e h]
  refine ⟨rfl, ?_, ?_, ?_⟩
  · show Event.uowOp ∉ [Event.beginOp]
    decide
  · show Event.commitOp ∉ [Event.beginOp]
    decide
  · show Event.rollbackOp ∉ [Event.beginOp]
    decide

theorem doContext_beginFail_returns_verbatim_witness :
    dbBeginFails.beginTx Ctx.background = Except.error 3 ∧
    (DoContext Ctx.background dbBeginFails
        (fun _ => (UowResult.ok : UowResult Nat Nat)) =
      ⟨Outcome.ret (some 3), [Event.beginOp]⟩ ∧
    Event.uowOp ∉ (DoContext Ctx.background dbBeginFails
        (fun _ => (UowResult.ok : UowResult Nat Nat))).events ∧
    Event.commitOp ∉ (DoContext Ctx.background dbBeginFails
        (fun _ => (UowResult.ok : UowResult Nat Nat))).events ∧
    Event.rollbackOp ∉ (DoContext Ctx.background dbBeginFails
        (fun _ => (UowResult.ok : UowResult Nat Nat))).events) :=
  ⟨rfl, doContext_beginFail_returns_verbatim Ctx.background dbBeginFails
    (fun _ => UowResult.ok) 3 rfl⟩

/-- C6: the observable result of the call — returned error, re-raised
panic payload, and even the operation trace — is the same whether rollback
succeeds or fails: two databases differing only in the rollback error
yield identical call results. -/
theorem doContext_rollback_error_never_surfaces {E P : Type} (ctx : Ctx)
    (b : Ctx → Except E Tx) (c : Tx → Option E) (r r' : Tx → Option E)
    (txFunc : Tx → UowResult E P) :
    DoContext ctx ⟨b, c, r⟩ txFunc = DoContext ctx ⟨b, c, r'⟩ txFunc := by
  rcases hb : b ctx with e | tx
  · rw [run_beginFail ctx ⟨b, c, r⟩ txFunc e hb,
      run_beginFail ctx ⟨b, c, r'⟩ txFunc e hb]
  · rcases hf : txFunc tx with _ | e | (_ | p)
    · rw [run_ok ctx ⟨b, c, r⟩ txFunc tx hb hf,
        run_ok ctx ⟨b, c, r'⟩ txFunc tx hb hf]
    · rw [run_err ctx ⟨b, c, r⟩ txFunc tx e hb hf,
        run_err ctx ⟨b, c, r'⟩ txFunc tx e hb hf]
    · rw [run_panicNone ctx ⟨b, c, r⟩ txFunc tx hb hf,
        run_panicNone ctx ⟨b, c, r'⟩ txFunc tx hb hf]
    · rw [run_panicSome ctx ⟨b, c, r⟩ txFunc tx p hb hf,
        run_panicSome ctx ⟨b, c, r'⟩ txFunc tx p hb hf]

/-- C7: the context-free convenience call `Do db txFunc` is behaviorally
identical to `DoContext` with the default context `context.Background()`:
same operations, same returned error, same re-raised panic. -/
theorem do_eq_doContext_background {E P : Type} (db : DB E)
    (txFunc : Tx → UowResult E P) :
    Do db txFunc = DoContext Ctx.background db txFunc := rfl

/-- Enumeration of the possible operation traces of a call: begin only,
begin/uow/commit, or begin/uow/rollback. -/
theorem doContext_events_cases {E P : Type} (ctx : Ctx) (db : DB E)
    (txFunc : Tx → UowResult E P) :
    (DoContext ctx db txFunc).events = [Event.beginOp] ∨
    (DoContext ctx db txFunc).events
      = [Event.beginOp, Event.uowOp, Event.commitOp] ∨
    (DoContext ctx db txFunc).events
      = [Event.beginOp, Event.uowOp, Event.rollbackOp] := by
  rcases hb : db.beginTx ctx with e | tx
  · rw [run_beginFail ctx db txFunc e hb]
    exact Or.inl rfl
  · rcases hf : txFunc tx with _ | e | (_ | p)
    · rw [run_ok ctx db txFunc tx hb hf]
      exact Or.inr (Or.inl rfl)
    · rw [run_err ctx db txFunc tx e hb hf]
      exact Or.inr (Or.inr rfl)
    · rw [run_panicNone ctx db txFunc tx hb hf]
      exact Or.inr (Or.inl rfl)
    · rw [run_panicSome ctx db txFunc tx p hb hf]
      exact Or.inr (Or.inr rfl)

/-- C8: in every call, each of begin, commit, and rollback occurs at most
once in the trace, and commit and rollback never both occur — so no
operation is ever retried and no finalization follows a commit failure. -/
theorem doContext_no_retries {E P : Type} (ctx : Ctx) (db : DB E)
    (txFunc : Tx → UowResult E P) :
    (DoContext ctx db txFunc).events.count Event.beginOp ≤ 1 ∧
    (DoContext ctx db txFunc).events.count Event.commitOp ≤ 1 ∧
    (DoContext ctx db txFunc).events.count Event.rollbackOp ≤ 1 ∧
    ¬(Event.commitOp ∈ (DoContext ctx db txFunc).events ∧
      Event.rollbackOp ∈ (DoContext ctx db txFunc).events) := by
  rcases doContext_events_cases ctx db txFunc with h | h | h <;>
    rw [h] <;> decide

/-- C9: if the unit of work panics with a nil payload, `recover()` yields
nil, the panic-interception branch does not fire, the transaction is
committed rather than rolled back, and the call returns the commit's
result instead of re-raising. -/
theorem doContext_panic_nil_commits {E P : Type} (ctx : Ctx) (db : DB E)
    (txFunc : Tx → UowResult E P) (tx : Tx)
    (h : db.beginTx ctx = Except.ok tx)
    (hf : txFunc tx = UowResult.panics none) :
    DoContext ctx db txFunc =
      ⟨Outcome.ret (db.commitErr tx),
        [Event.beginOp, Event.uowOp, Event.commitOp]⟩ :=
  run_panicNone ctx db txFunc tx h hf

theorem doContext_panic_nil_commits_witness :
    dbCommitFails.beginTx Ctx.background = Except.ok ⟨0⟩ ∧
    (fun _ : Tx => (UowResult.panics none : UowResult Nat Nat)) (Tx.mk 0)
      = UowResult.panics none ∧
    DoContext Ctx.background dbCommitFails
        (fun _ => (UowResult.panics none : UowResult Nat Nat)) =
      ⟨Outcome.ret (dbCommitFails.commitErr ⟨0⟩),
        [Event.beginOp, Event.uowOp, Event.commitOp]⟩ :=
  ⟨rfl, rfl, doContext_panic_nil_commits Ctx.background dbCommitFails
    (fun _ => UowResult.panics none) ⟨0⟩ rfl rfl⟩

/-- C10: the legacy three-argument `Do` is behaviorally equal to
`DoContext`: for every context, database handle, and unit of work, both
yield the same outcome and the same operation trace. -/
theorem legacy_do_eq_doContext {E P : Type} (ctx : Ctx) (db : DB E)
    (txFunc : Tx → UowResult E P) :
    Legacy.Do ctx db txFunc = DoContext ctx db txFunc := by
  unfold Legacy.Do DoContext
  rcases hb : db.beginTx ctx with e | tx
  · rfl
  · simp only [Legacy.deferredFinalize, deferredFinalize]

end Transact
